import Mathlib

/-
Verification of the product-catalog GraphQL API (src/main.py) against its
natural-language specification.

The program exposes a DynamoDB-backed product catalog through a Strawberry
GraphQL schema.  This development shallowly embeds the program:

  * DynamoDB attribute values are modelled with `Option` for absence and
    exact rationals (`ℚ`) for `Decimal` numbers.  Python truthiness on a
    Decimal (`if item.get("price")`) is falsity exactly on absence and zero.
  * The products table, as seen by the keyed operations `get_item` and
    `update_item`, is a keyed map from the partition key `product_id` to
    the remaining attributes.  The paginated `scan` view of the same table
    is a list of pages of raw items.
  * DynamoDB `update_item` follows its documented semantics: it is an
    upsert (when no item with the given key exists, a new item is created
    holding the key and the attributes assigned by the SET expression), and
    `ReturnValues="UPDATED_NEW"` returns the new values of exactly the
    updated attributes.  An empty SET expression and an empty
    `ExpressionAttributeNames` map are each rejected with a
    `ValidationException` before anything is written.
  * HTTP 500 responses produced by the blanket `except` handlers and the
    404 branch of `update_product` are the constructors of `ApiErr`.
  * The Strawberry/graphql-core execution engine is modelled by
    `resolveFields` (only the resolvers of the requested fields run, each adapter
    call is logged) and `completeProduct` (GraphQL completion, including
    the propagation rule that an error on a non-nullable field nullifies
    the enclosing object).
-/

deriving instance DecidableEq for Except

namespace DisGraphql

/-! ## Data model (the Strawberry types of src/main.py) -/

/-- The `Review` Strawberry type: product_id, review_id, rating, comment. -/
structure Review where
  product_id : String
  review_id : String
  rating : Int
  comment : String
deriving DecidableEq

/-- The `Inventory` Strawberry type: product_id, quantity_available, location. -/
structure Inventory where
  product_id : String
  quantity_available : Int
  loc : String
deriving DecidableEq

/-- The `Product` Strawberry type: required product_id, optional name, price,
description.  The price is `float | None` in the source; it is modelled as an
exact rational. -/
structure Product where
  product_id : String
  name : Option String := none
  price : Option ℚ := none
  description : Option String := none
deriving DecidableEq

/-! ## Raw stored items and the entity mapping -/

/-- A raw item as returned by a `scan` of the products table: an attribute
map in which every attribute, the key `product_id` included, may be absent
(a malformed record can lack its required field). -/
structure Item where
  product_id : Option String
  name : Option String
  price : Option ℚ
  description : Option String
deriving DecidableEq

/-- The non-key attributes of a well-keyed stored product, used by the keyed
operations `get_item` / `update_item` for which DynamoDB guarantees the key. -/
structure Attrs where
  name : Option String
  price : Option ℚ
  description : Option String
deriving DecidableEq

/-- The products table as seen by the keyed operations: key to attributes. -/
abbrev ProdTable := String → Option Attrs

/-- Error outcomes of the HTTP layer: `serverError` stands for the
`HTTPException(status_code=500, ...)` raised by the blanket handlers, and
`notFound` for the `HTTPException(status_code=404, ...)` branch. -/
inductive ApiErr where
  | serverError
  | notFound
deriving DecidableEq

/-- Mirrors `float(item.get("price")) if item.get("price") else None`: the
guard is Python truthiness of a `Decimal`, which is false exactly when the
attribute is absent (or null) or the stored decimal equals zero. -/
def convertPrice : Option ℚ → Option ℚ
  | some p => if p = 0 then none else some p
  | none => none

/-- Mirrors the `Product(...)` construction applied to a raw scanned item in
`list_products`: `item["product_id"]` raises `KeyError` when the attribute is
absent, which the blanket `except Exception` handler turns into an HTTP 500
for the whole response. -/
def toProduct (item : Item) : Except ApiErr Product :=
  match item.product_id with
  | none => .error .serverError
  | some pid =>
      .ok { product_id := pid
            name := item.name
            price := convertPrice item.price
            description := item.description }

/-! ## Query root: get_product and list_products -/

/-- Mirrors `Query.get_product`: `get_item` by key, `None` when absent
(absence is a valid result, not an error), otherwise the mapped entity. -/
def get_product (table : ProdTable) (product_id : String) : Option Product :=
  match table product_id with
  | none => none
  | some a =>
      some { product_id := product_id
             name := a.name
             price := convertPrice a.price
             description := a.description }

/-- One `scan` call against the paginated view: returns the page addressed by
the continuation token together with the next token, which is present exactly
when the backend has further pages (`LastEvaluatedKey`). -/
def scanStep (pages : List (List Item)) (tok : Nat) : List Item × Option Nat :=
  (pages.getD tok [], if tok + 1 < pages.length then some (tok + 1) else none)

/-- Mirrors the `while "LastEvaluatedKey" in response` loop of
`Query.list_products`: accumulate the current page, and continue exactly while
the backend reports a continuation token (see `scanLoop_eq_scanStep`).
Termination is by the strictly decreasing count of pages left. -/
def scanLoop (pages : List (List Item)) (tok : Nat) (acc : List Item) : List Item :=
  if _h : tok + 1 < pages.length then
    scanLoop pages (tok + 1) (acc ++ pages.getD tok [])
  else
    acc ++ pages.getD tok []
termination_by pages.length - tok
decreasing_by omega

/-- The item sequence gathered by `list_products` before mapping: the first
`scan` call starts without a token. -/
def scanItems (pages : List (List Item)) : List Item :=
  scanLoop pages 0 []

/-- Mirrors the list comprehension `[Product(...) for item in items]` inside
the `try` block: items are mapped in order and the first mapping failure
aborts the whole computation. -/
def mapProducts : List Item → Except ApiErr (List Product)
  | [] => .ok []
  | item :: rest =>
      match toProduct item with
      | .error e => .error e
      | .ok p =>
          match mapProducts rest with
          | .error e => .error e
          | .ok ps => .ok (p :: ps)

/-- Mirrors `Query.list_products`: follow the pagination tokens, concatenate
all pages, then map every raw item to a `Product`. -/
def list_products (pages : List (List Item)) : Except ApiErr (List Product) :=
  mapProducts (scanItems pages)

/-! ## Mutation root: update_product -/

/-- The arguments of the `update_product` mutation: every field other than
the key is optional, `None` meaning "not supplied by the caller". -/
structure UpdateArgs where
  name : Option String
  price : Option ℚ
  description : Option String
deriving DecidableEq

/-- Mirrors the construction of `update_expression_parts` in
`Mutation.update_product`: one SET action per supplied field, in source
order (name, price, description). -/
def update_expression_parts (args : UpdateArgs) : List String :=
  (if args.name.isSome then ["#n = :n"] else []) ++
  (if args.price.isSome then ["price = :p"] else []) ++
  (if args.description.isSome then ["#d = :d"] else [])

/-- Mirrors the construction of `expression_attribute_names` in
`Mutation.update_product`: the placeholder map gains an entry only for the
name and description fields (price is written without a placeholder), yet the
source passes the map to `update_item` unconditionally, even when empty. -/
def expression_attribute_names (args : UpdateArgs) : List (String × String) :=
  (if args.name.isSome then [("#n", "name")] else []) ++
  (if args.description.isSome then [("#d", "description")] else [])

/-- The attribute names assigned by the SET expression, i.e. the fields the
backend update is constructed from. -/
def updatedFieldNames (args : UpdateArgs) : List String :=
  (if args.name.isSome then ["name"] else []) ++
  (if args.price.isSome then ["price"] else []) ++
  (if args.description.isSome then ["description"] else [])

/-- Applying the SET expression to the attributes of an existing item: a
supplied field is overwritten, an omitted field keeps its stored value. -/
def applyUpdate (a : Attrs) (args : UpdateArgs) : Attrs where
  name := match args.name with
    | some n => some n
    | none => a.name
  price := match args.price with
    | some p => some p
    | none => a.price
  description := match args.description with
    | some d => some d
    | none => a.description

/-- The attribute map DynamoDB returns for `ReturnValues="UPDATED_NEW"`: the
new values of exactly the attributes assigned by the SET expression. -/
def updatedAttrs (args : UpdateArgs) : Attrs where
  name := args.name
  price := args.price
  description := args.description

/-- An item with no attributes beyond its key. -/
def emptyAttrs : Attrs where
  name := none
  price := none
  description := none

/-- Models the documented semantics of DynamoDB `UpdateItem` without a
condition expression: when an item with the given key exists the SET actions
are applied to it, and when none exists a new item is created (upsert)
holding the key and exactly the assigned attributes.  The returned pair is
the `UPDATED_NEW` attribute map and the table after the write. -/
def update_item (table : ProdTable) (product_id : String) (args : UpdateArgs) :
    Attrs × ProdTable :=
  match table product_id with
  | some a =>
      (updatedAttrs args,
       fun q => if q = product_id then some (applyUpdate a args) else table q)
  | none =>
      (updatedAttrs args,
       fun q => if q = product_id then some (applyUpdate emptyAttrs args) else table q)

/-- Mirrors `Mutation.update_product`.  DynamoDB rejects the request with a
`ValidationException` before writing anything when the SET expression is
empty (`"SET "` with no actions, i.e. no field supplied) and likewise when
the unconditionally passed `ExpressionAttributeNames` map is empty (which
happens exactly when neither name nor description is supplied, e.g. a
price-only update); the blanket `except ClientError` handler turns either
into an HTTP 500.  Otherwise `update_item` runs, the code raises 404 when
the returned `Attributes` map is empty, and on success builds the returned
`Product` from the `UPDATED_NEW` attributes alone. -/
def update_product (table : ProdTable) (product_id : String) (args : UpdateArgs) :
    Except ApiErr (Product × ProdTable) :=
  if update_expression_parts args = [] then
    .error .serverError
  else if expression_attribute_names args = [] then
    .error .serverError
  else if (update_item table product_id args).1.name.isNone &&
      (update_item table product_id args).1.price.isNone &&
      (update_item table product_id args).1.description.isNone then
    .error .notFound
  else
    .ok ({ product_id := product_id
           name := (update_item table product_id args).1.name
           price := convertPrice (update_item table product_id args).1.price
           description := (update_item table product_id args).1.description },
         (update_item table product_id args).2)

/-! ## Resolver graph: nested field resolution -/

/-- One backend failure kind for relationship fetches: the `ClientError`
(network, throttling, auth) the spec calls `BackendUnavailable`. -/
inductive BackendErr where
  | backendUnavailable
deriving DecidableEq

/-- The stores backing the relationship resolvers, together with an
availability flag per table modelling whether its backend calls succeed or
raise `ClientError`. -/
structure Stores where
  reviewsTable : List Review
  reviewsAvailable : Bool
  inventoryTable : List Inventory
  inventoryAvailable : Bool
deriving DecidableEq

/-- Mirrors the `Product.reviews` resolver: a `query` on the reviews table
with key condition `product_id = self.product_id`, keeping storage order, each
row passed through the `Review` constructor. -/
def reviewsResolver (st : Stores) (product_id : String) :
    Except BackendErr (List Review) :=
  if st.reviewsAvailable then
    .ok (st.reviewsTable.filter (fun r => r.product_id = product_id))
  else
    .error .backendUnavailable

/-- Mirrors the `Product.inventory` resolver: `get_item` on the inventory
table; a missing (or empty, hence falsy) item yields `None`, which the
`Optional[Inventory]` return type allows. -/
def inventoryResolver (st : Stores) (product_id : String) :
    Except BackendErr (Option Inventory) :=
  if st.inventoryAvailable then
    match st.inventoryTable.find? (fun i => i.product_id = product_id) with
    | none => .ok none
    | some i => .ok (some i)
  else
    .error .backendUnavailable

/-- The fields of the `Product` GraphQL type. -/
inductive PField where
  | productId
  | name
  | price
  | description
  | reviews
  | inventory
deriving DecidableEq

/-- The GraphQL response name of each field. -/
def fieldName : PField → String
  | .productId => "productId"
  | .name => "name"
  | .price => "price"
  | .description => "description"
  | .reviews => "reviews"
  | .inventory => "inventory"

/-- Nullability of each field as Strawberry derives it from the annotations:
`product_id: str` and `reviews -> List[Review]` are non-nullable, the
`Optional`/defaulted fields are nullable. -/
def fieldNonNull : PField → Bool
  | .productId => true
  | .reviews => true
  | _ => false

/-- A value at one node of the response graph. -/
inductive FieldValue where
  | str : String → FieldValue
  | num : ℚ → FieldValue
  | revs : List Review → FieldValue
  | inv : Inventory → FieldValue
  | null
deriving DecidableEq

/-- An optional string as a response value. -/
def optStrVal : Option String → FieldValue
  | some s => .str s
  | none => .null

/-- An optional number as a response value. -/
def optNumVal : Option ℚ → FieldValue
  | some q => .num q
  | none => .null

/-- An optional inventory record as a response value. -/
def optInvVal : Option Inventory → FieldValue
  | some i => .inv i
  | none => .null

/-- A storage-adapter call issued during resolution, for the call log. -/
inductive FetchCall where
  | reviewsQuery : String → FetchCall
  | inventoryGet : String → FetchCall
deriving DecidableEq

/-- Resolves one requested field of a product: scalar fields are read from
the already-mapped entity with no adapter call; the relationship fields
invoke their resolver and log the adapter call it issues. -/
def resolveField (st : Stores) (p : Product) :
    PField → Except BackendErr FieldValue × List FetchCall
  | .productId => (.ok (.str p.product_id), [])
  | .name => (.ok (optStrVal p.name), [])
  | .price => (.ok (optNumVal p.price), [])
  | .description => (.ok (optStrVal p.description), [])
  | .reviews =>
      ((reviewsResolver st p.product_id).map FieldValue.revs,
       [.reviewsQuery p.product_id])
  | .inventory =>
      ((inventoryResolver st p.product_id).map optInvVal,
       [.inventoryGet p.product_id])

/-- Models the demand-driven execution of the GraphQL engine: exactly the
fields present in the requested field set have their resolvers invoked, in
request order; adapter calls are concatenated into one log. -/
def resolveFields (st : Stores) (p : Product) :
    List PField → List (PField × Except BackendErr FieldValue) × List FetchCall
  | [] => ([], [])
  | f :: fs =>
      let r := resolveField st p f
      let rest := resolveFields st p fs
      ((f, r.1) :: rest.1, r.2 ++ rest.2)

/-- A field-level error descriptor of the response: a path and a message. -/
structure GError where
  path : List String
  message : String
deriving DecidableEq

/-- Whether an `Except` result is a success. -/
def isOkE : Except ε α → Bool
  | .ok _ => true
  | .error _ => false

/-- Models GraphQL value completion for the product object under a root
field: every failed field contributes a field-level error with its path; a
failed nullable field completes to `null`, while a failed non-nullable field
propagates, nullifying the whole enclosing product object (the GraphQL
errors-and-non-null rule). -/
def completeProduct (rootField : String)
    (results : List (PField × Except BackendErr FieldValue)) :
    Option (List (PField × FieldValue)) × List GError :=
  let errs := results.filterMap (fun fr =>
    match fr.2 with
    | .error _ => some { path := [rootField, fieldName fr.1],
                         message := "backend unavailable" }
    | .ok _ => none)
  if results.any (fun fr => !isOkE fr.2 && fieldNonNull fr.1) then
    (none, errs)
  else
    (some (results.map (fun fr =>
      (fr.1, match fr.2 with
             | .ok v => v
             | .error _ => FieldValue.null))), errs)

/-- Evaluation of a product query: resolve the requested fields, complete the
object, and report the adapter-call log.  The first component is the
completed data together with the field-level errors; the second is the log. -/
def evalProductQuery (st : Stores) (p : Product) (requested : List PField) :
    (Option (List (PField × FieldValue)) × List GError) × List FetchCall :=
  let r := resolveFields st p requested
  (completeProduct "product" r.1, r.2)

/-! ## Concrete sample data used by witnesses and counterexamples -/

/-- The empty products table. -/
def emptyTable : ProdTable := fun _ => none

/-- A products table holding one product, `p1`, with a name, a price and a
description. -/
def oneProductTable : ProdTable := fun s =>
  if s = "p1" then
    some { name := some "Widget", price := some 10, description := some "old" }
  else
    none

/-- An update supplying the price only (the example of the spec,
price 9.99). -/
def priceOnlyArgs : UpdateArgs where
  name := none
  price := some (999 / 100 : ℚ)
  description := none

/-- An update supplying a new name and a new price, omitting the
description. -/
def namePriceArgs : UpdateArgs where
  name := some "Gadget"
  price := some (999 / 100 : ℚ)
  description := none

/-- The price surfaced by a call to `update_product`, `none` when the call
fails: the observable needed to state facts about the returned entity view
without fixing the whole result. -/
def priceOfUpdate (table : ProdTable) (product_id : String)
    (args : UpdateArgs) : Option (Option ℚ) :=
  match update_product table product_id args with
  | .ok r => some r.1.price
  | .error _ => none

/-- Stores in which the reviews backend raises `ClientError` while the
inventory backend answers and holds a record for `p1`. -/
def failStores : Stores where
  reviewsTable := []
  reviewsAvailable := false
  inventoryTable := [{ product_id := "p1", quantity_available := 5, loc := "WH1" }]
  inventoryAvailable := true

/-- Stores in which both backends answer: one review and no inventory,
both keyed to `p2`. -/
def okStores : Stores where
  reviewsTable := [{ product_id := "p2", review_id := "r1", rating := 4, comment := "fine" }]
  reviewsAvailable := true
  inventoryTable := [{ product_id := "p2", quantity_available := 1, loc := "WH2" }]
  inventoryAvailable := true

/-- A mapped product entity for `p1`. -/
def prodP1 : Product where
  product_id := "p1"
  name := some "Widget"
  price := none
  description := none

/-- A products table holding one product, `pz`, whose stored price is
present and exactly zero. -/
def zeroPriceTable : ProdTable := fun s =>
  if s = "pz" then
    some { name := some "Zed", price := some 0, description := none }
  else
    none

/-- A raw scanned item whose stored price is present and exactly zero. -/
def zeroItem : Item where
  product_id := some "pz"
  name := some "Zed"
  price := some 0
  description := none

/-- The entity `zeroItem` maps to: its price is surfaced as absent. -/
def zeroProd : Product where
  product_id := "pz"
  name := some "Zed"
  price := none
  description := none

/-- An update supplying a new name and a price of exactly zero. -/
def zeroPriceArgs : UpdateArgs where
  name := some "n2"
  price := some 0
  description := none

/-! ## Basic facts about the scan loop -/

/-- The loop guard of `scanLoop` is exactly the presence of the continuation
token reported by `scanStep`: the loop keeps going precisely while the backend
signals further pages. -/
theorem scanLoop_eq_scanStep (pages : List (List Item)) (tok : Nat)
    (acc : List Item) :
    scanLoop pages tok acc =
      match (scanStep pages tok).2 with
      | some t => scanLoop pages t (acc ++ (scanStep pages tok).1)
      | none => acc ++ (scanStep pages tok).1 := by
  rw [scanLoop]
  simp only [scanStep]
  split
  · next h => simp [h]
  · next h => simp [h]

theorem scanLoop_eq_append_flatten (pages : List (List Item)) (tok : Nat)
    (acc : List Item) :
    scanLoop pages tok acc = acc ++ (pages.drop tok).flatten := by
  rw [scanLoop]
  split
  · next h =>
      have hlt : tok < pages.length := by omega
      rw [scanLoop_eq_append_flatten pages (tok + 1) (acc ++ pages.getD tok [])]
      rw [List.drop_eq_getElem_cons hlt]
      rw [List.getD_eq_getElem pages [] hlt]
      simp only [List.flatten_cons, List.append_assoc]
  · next h =>
      rcases Nat.lt_or_ge tok pages.length with hlt | hge
      · have hge1 : pages.length ≤ tok + 1 := by omega
        rw [List.drop_eq_getElem_cons hlt]
        rw [List.getD_eq_getElem pages [] hlt]
        rw [List.drop_eq_nil_of_le hge1]
        simp only [List.flatten_cons, List.flatten_nil, List.append_nil]
      · rw [List.drop_eq_nil_of_le hge]
        rw [List.getD_eq_default pages [] hge]
        simp only [List.flatten_nil, List.append_nil]
termination_by pages.length - tok

/-- The items gathered by the pagination loop are exactly the concatenation
of all backend pages in page order. -/
theorem scanItems_eq_flatten (pages : List (List Item)) :
    scanItems pages = pages.flatten := by
  rw [scanItems, scanLoop_eq_append_flatten]
  simp

/-! ## Facts about the mapping of scanned items -/

/-- The mapping of an item can only fail with the 500 internal error. -/
theorem toProduct_error_eq {a : Item} {e : ApiErr}
    (h : toProduct a = .error e) : e = .serverError := by
  rw [toProduct] at h
  cases hp : a.product_id with
  | none => rw [hp] at h; cases h; rfl
  | some pid => rw [hp] at h; cases h

/-- Every product in a successful mapping comes from some item of the list. -/
theorem mapProducts_ok_mem {l : List Item} {ys : List Product} {y : Product}
    (hok : mapProducts l = .ok ys) (hmem : y ∈ ys) :
    ∃ x ∈ l, toProduct x = .ok y := by
  induction l generalizing ys with
  | nil =>
      rw [mapProducts] at hok
      cases hok
      simp at hmem
  | cons a rest ih =>
      rw [mapProducts] at hok
      split at hok
      · cases hok
      · rename_i p hp
        split at hok
        · cases hok
        · rename_i ps hps
          cases hok
          rcases List.mem_cons.mp hmem with hy | hy
          · exact ⟨a, List.mem_cons_self a rest, hy ▸ hp⟩
          · rcases ih hps hy with ⟨x, hx, hxp⟩
            exact ⟨x, List.mem_cons_of_mem a hx, hxp⟩

/-- A list holding a record without its required `product_id` attribute never
maps successfully: the comprehension raises and the handler returns the 500
error for the whole response. -/
theorem mapProducts_error {l : List Item}
    (h : ∃ x ∈ l, x.product_id = none) :
    mapProducts l = .error .serverError := by
  induction l with
  | nil => simp at h
  | cons a rest ih =>
      rcases h with ⟨x, hx, hpid⟩
      rcases List.mem_cons.mp hx with hxa | hxr
      · subst hxa
        have hx0 : toProduct x = .error .serverError := by
          rw [toProduct, hpid]
        rw [mapProducts, hx0]
      · cases ha : toProduct a with
        | error e =>
            have he := toProduct_error_eq ha
            subst he
            rw [mapProducts, ha]
        | ok p =>
            rw [mapProducts, ha, ih ⟨x, hxr, hpid⟩]

/-- If `toProduct` succeeds on an item whose stored price is exactly zero,
the surfaced price is absent. -/
theorem toProduct_price_zero {item : Item} {prod : Product}
    (hok : toProduct item = .ok prod) (hz : item.price = some 0) :
    prod.price = none := by
  rw [toProduct] at hok
  cases hp : item.product_id with
  | none => rw [hp] at hok; cases hok
  | some pid =>
      rw [hp] at hok
      cases hok
      simp [convertPrice, hz]

/-! ## C3: listProducts follows all continuation tokens and concatenates -/

/-- C3: for every backend whose scan yields finitely many pages linked by
continuation tokens, `list_products` follows the tokens until the backend
signals no further pages (the loop is total by construction), and returns the
mapping of the concatenation of all pages in page order; a backend holding
zero items (one empty page, no token) yields the empty sequence, and three
pages of two items yield exactly those six items in page order. -/
theorem list_products_concats_pages :
    (∀ pages : List (List Item),
        scanItems pages = pages.flatten ∧
        list_products pages = mapProducts pages.flatten)
    ∧ list_products [[]] = .ok []
    ∧ list_products
        [[{ product_id := some "p1", name := some "A", price := none, description := none },
          { product_id := some "p2", name := none, price := none, description := none }],
         [{ product_id := some "p3", name := none, price := some 3, description := none },
          { product_id := some "p4", name := none, price := none, description := none }],
         [{ product_id := some "p5", name := none, price := none, description := some "d" },
          { product_id := some "p6", name := none, price := none, description := none }]] =
      .ok [{ product_id := "p1", name := some "A", price := none, description := none },
           { product_id := "p2", name := none, price := none, description := none },
           { product_id := "p3", name := none, price := some 3, description := none },
           { product_id := "p4", name := none, price := none, description := none },
           { product_id := "p5", name := none, price := none, description := some "d" },
           { product_id := "p6", name := none, price := none, description := none }] := by
  refine ⟨fun pages => ⟨scanItems_eq_flatten pages, ?_⟩, ?_, ?_⟩
  · rw [list_products, scanItems_eq_flatten]
  · rw [list_products, scanItems_eq_flatten]; decide
  · rw [list_products, scanItems_eq_flatten]; decide

/-! ## C9: a mapping failure aborts the whole listProducts response -/

/-- C9 counterexample: with one well-formed record and one record missing its
required `product_id`, `list_products` does not surface a field-level error
and keep the good record; it returns the 500 error for the whole response
(the `KeyError` is swallowed by the blanket handler), even though the
well-formed record on its own maps fine. -/
theorem mapping_error_counterexample :
    list_products
        [[{ product_id := some "p1", name := some "Widget", price := none, description := none },
          { product_id := none, name := some "Broken", price := none, description := none }]] =
      .error .serverError
    ∧ mapProducts [{ product_id := some "p1", name := some "Widget", price := none, description := none }] =
        .ok [{ product_id := "p1", name := some "Widget", price := none, description := none }] := by
  constructor
  · rw [list_products, scanItems_eq_flatten]; decide
  · decide

/-- C9 amended: whenever any scanned page holds a record without its required
`product_id` attribute, the whole `list_products` response fails with the 500
internal error; no well-formed sibling record is returned. -/
theorem mapping_error_aborts_response (pages : List (List Item))
    (h : ∃ item ∈ pages.flatten, item.product_id = none) :
    list_products pages = .error .serverError := by
  rw [list_products, scanItems_eq_flatten]
  exact mapProducts_error h

/-- C9 amended, witness: a backend with a malformed record on its second page
makes the whole response fail. -/
theorem mapping_error_aborts_response_witness :
    list_products
        [[{ product_id := some "g1", name := none, price := none, description := none }],
         [{ product_id := none, name := some "Bad", price := none, description := none }]] =
      .error .serverError :=
  mapping_error_aborts_response _ (by decide)

/-! ## C1: updateProduct on a missing id does not surface NotFound -/

/-- C1 (evaluation at the failing input): calling `update_product` with a
product_id absent from the products store does not surface `NotFound`.
Because DynamoDB `UpdateItem` without a condition expression upserts, the
call succeeds, returns a `Product` built from the supplied field, and the
store afterwards holds a freshly created record under the missing id.  The
404 branch of the source is unreachable: with at least one supplied field
the `UPDATED_NEW` attribute map is never empty. -/
theorem update_missing_id_upserts :
    (update_product emptyTable "missing-id"
        { name := some "x", price := none, description := none }).map Prod.fst =
      .ok { product_id := "missing-id", name := some "x", price := none,
            description := none }
    ∧ (update_product emptyTable "missing-id"
        { name := some "x", price := none, description := none }).map
          (fun r => r.2 "missing-id") =
      .ok (some { name := some "x", price := none, description := none })
    ∧ update_product emptyTable "missing-id"
        { name := some "x", price := none, description := none } ≠
      .error .notFound := by
  refine ⟨by decide, by decide, ?_⟩
  intro h
  have h1 : (update_product emptyTable "missing-id"
      { name := some "x", price := none, description := none }).map Prod.fst =
      .ok { product_id := "missing-id", name := some "x", price := none,
            description := none } := by decide
  rw [h] at h1
  exact absurd h1 (by decide)

/-! ## C2: a sparse update writes only the supplied fields -/

/-- C2 counterexample: the example of the spec itself,
`updateProduct("p1", price 9.99)` on the existing product `p1`.  The source
builds a SET expression for the price alone but passes the empty
`ExpressionAttributeNames` map to the backend, which rejects it with a
`ValidationException`; the call surfaces as an HTTP 500 and nothing is
written, so a sparse price-only change is not applied at all, contradicting
the claim. -/
theorem price_only_update_rejected :
    update_product oneProductTable "p1" priceOnlyArgs = .error .serverError
    ∧ update_expression_parts priceOnlyArgs = ["price = :p"]
    ∧ expression_attribute_names priceOnlyArgs = [] := by
  refine ⟨rfl, by decide, by decide⟩

/-- C2 amended: updating an existing product writes only the supplied
fields.  The stored record under the key keeps every omitted attribute
unchanged, every other record of the table is untouched, and the SET
expression holds an action for an attribute exactly when the caller supplied
that field; when the supplied fields include the name or the description the
mutation succeeds and returns the entity view built from the applied
changes, but when neither is supplied (a price-only update) the backend
rejects the empty placeholder map and the call fails with the 500 internal
error instead of applying the change. -/
theorem update_product_frame (table : ProdTable) (product_id q : String)
    (args : UpdateArgs) (a : Attrs)
    (hex : table product_id = some a) (hq : q ≠ product_id) :
    (update_item table product_id args).2 product_id = some (applyUpdate a args)
    ∧ (args.name = none → (applyUpdate a args).name = a.name)
    ∧ (args.price = none → (applyUpdate a args).price = a.price)
    ∧ (args.description = none → (applyUpdate a args).description = a.description)
    ∧ (update_item table product_id args).2 q = table q
    ∧ (expression_attribute_names args ≠ [] →
        update_product table product_id args =
          .ok ({ product_id := product_id, name := args.name,
                 price := convertPrice args.price,
                 description := args.description },
               (update_item table product_id args).2))
    ∧ (expression_attribute_names args = [] →
        update_product table product_id args = .error .serverError)
    ∧ ("#n = :n" ∈ update_expression_parts args → args.name ≠ none)
    ∧ ("price = :p" ∈ update_expression_parts args → args.price ≠ none)
    ∧ ("#d = :d" ∈ update_expression_parts args → args.description ≠ none)
    ∧ ("name" ∈ updatedFieldNames args → args.name ≠ none)
    ∧ ("price" ∈ updatedFieldNames args → args.price ≠ none)
    ∧ ("description" ∈ updatedFieldNames args → args.description ≠ none) := by
  have hupd : update_item table product_id args =
      (updatedAttrs args,
       fun qq => if qq = product_id then some (applyUpdate a args) else table qq) := by
    rw [update_item, hex]
  refine ⟨?_, ?_, ?_, ?_, ?_, ?_, ?_, ?_, ?_, ?_, ?_, ?_, ?_⟩
  · rw [hupd]; simp
  · intro h; simp [applyUpdate, h]
  · intro h; simp [applyUpdate, h]
  · intro h; simp [applyUpdate, h]
  · rw [hupd]; simp [hq]
  · intro hne
    have hparts : update_expression_parts args ≠ [] := by
      cases hn : args.name <;> cases hd : args.description <;>
        simp_all [expression_attribute_names, update_expression_parts]
    have hcond : ((updatedAttrs args).name.isNone && (updatedAttrs args).price.isNone &&
        (updatedAttrs args).description.isNone) = false := by
      cases hn : args.name <;> cases hd : args.description <;>
        simp_all [expression_attribute_names, updatedAttrs]
    rw [update_product, if_neg hparts, if_neg hne, hupd]
    simp only [hcond, Bool.false_eq_true, if_false]
    simp [updatedAttrs]
  · intro hnm
    by_cases hparts : update_expression_parts args = []
    · rw [update_product, if_pos hparts]
    · rw [update_product, if_neg hparts, if_pos hnm]
  · intro hmem hnone
    cases hp : args.price <;> cases hd : args.description <;>
      simp_all [update_expression_parts]
  · intro hmem hnone
    cases hn : args.name <;> cases hd : args.description <;>
      simp_all [update_expression_parts]
  · intro hmem hnone
    cases hn : args.name <;> cases hp : args.price <;>
      simp_all [update_expression_parts]
  · intro hmem hnone
    cases hp : args.price <;> cases hd : args.description <;>
      simp_all [updatedFieldNames]
  · intro hmem hnone
    cases hn : args.name <;> cases hd : args.description <;>
      simp_all [updatedFieldNames]
  · intro hmem hnone
    cases hn : args.name <;> cases hp : args.price <;>
      simp_all [updatedFieldNames]

/-- C2 amended, witness: updating name and price of the existing product
`p1` leaves its stored description untouched, leaves the record `p2` absent
as it was, builds the SET expression from the supplied fields alone, and
succeeds, returning the applied changes. -/
theorem update_product_frame_witness :
    (update_item oneProductTable "p1" namePriceArgs).2 "p1" =
        some (applyUpdate
          { name := some "Widget", price := some 10, description := some "old" }
          namePriceArgs)
    ∧ (namePriceArgs.name = none →
        (applyUpdate
          { name := some "Widget", price := some 10, description := some "old" }
          namePriceArgs).name = some "Widget")
    ∧ (namePriceArgs.price = none →
        (applyUpdate
          { name := some "Widget", price := some 10, description := some "old" }
          namePriceArgs).price = some 10)
    ∧ (namePriceArgs.description = none →
        (applyUpdate
          { name := some "Widget", price := some 10, description := some "old" }
          namePriceArgs).description = some "old")
    ∧ (update_item oneProductTable "p1" namePriceArgs).2 "p2" = oneProductTable "p2"
    ∧ (expression_attribute_names namePriceArgs ≠ [] →
        update_product oneProductTable "p1" namePriceArgs =
          .ok ({ product_id := "p1", name := namePriceArgs.name,
                 price := convertPrice namePriceArgs.price,
                 description := namePriceArgs.description },
               (update_item oneProductTable "p1" namePriceArgs).2))
    ∧ (expression_attribute_names namePriceArgs = [] →
        update_product oneProductTable "p1" namePriceArgs = .error .serverError)
    ∧ ("#n = :n" ∈ update_expression_parts namePriceArgs → namePriceArgs.name ≠ none)
    ∧ ("price = :p" ∈ update_expression_parts namePriceArgs → namePriceArgs.price ≠ none)
    ∧ ("#d = :d" ∈ update_expression_parts namePriceArgs → namePriceArgs.description ≠ none)
    ∧ ("name" ∈ updatedFieldNames namePriceArgs → namePriceArgs.name ≠ none)
    ∧ ("price" ∈ updatedFieldNames namePriceArgs → namePriceArgs.price ≠ none)
    ∧ ("description" ∈ updatedFieldNames namePriceArgs → namePriceArgs.description ≠ none) :=
  update_product_frame oneProductTable "p1" "p2" namePriceArgs
    { name := some "Widget", price := some 10, description := some "old" }
    (by decide) (by decide)

/-! ## C10: a stored price of exactly zero is surfaced as absent -/

/-- C10: a stored price that is present and exactly zero is surfaced as
absent (`none`) rather than as the value zero, by `get_product`, by the item
mapping used in `list_products`, and by `update_product` (whose returned
price is absent whenever the caller did not supply a nonzero price), because
the conversion is guarded by the Python truthiness of the stored Decimal. -/
theorem zero_price_surfaces_absent (table : ProdTable) (product_id : String)
    (a : Attrs) (item : Item) (pages : List (List Item)) (prods : List Product)
    (prod : Product) (args : UpdateArgs)
    (hget : table product_id = some a) (hpz : a.price = some 0)
    (hiz : item.price = some 0)
    (hlist : list_products pages = .ok prods) (hmem : prod ∈ prods)
    (hargs : args.price = none ∨ args.price = some 0) :
    (get_product table product_id).map Product.price = some none
    ∧ ((toProduct item).map Product.price = .ok none ∨
        (toProduct item).map Product.price = .error .serverError)
    ∧ (∃ it ∈ scanItems pages, toProduct it = .ok prod ∧
        (it.price = some 0 → prod.price = none))
    ∧ (priceOfUpdate table product_id args = some none ∨
        priceOfUpdate table product_id args = none) := by
  refine ⟨?_, ?_, ?_, ?_⟩
  · rw [get_product, hget]
    simp [convertPrice, hpz]
  · cases hp : item.product_id with
    | none => right; simp [toProduct, hp, Except.map]
    | some pid => left; simp [toProduct, hp, hiz, convertPrice, Except.map]
  · rw [list_products] at hlist
    rcases mapProducts_ok_mem hlist hmem with ⟨it, hit, htp⟩
    exact ⟨it, hit, htp, fun hz => toProduct_price_zero htp hz⟩
  · by_cases hne : update_expression_parts args = []
    · right
      rw [priceOfUpdate, update_product, if_pos hne]
    · by_cases hnm : expression_attribute_names args = []
      · right
        rw [priceOfUpdate, update_product, if_neg hne, if_pos hnm]
      have h1 : (update_item table product_id args).1 = updatedAttrs args := by
        rw [update_item]; cases table product_id <;> rfl
      rw [priceOfUpdate, update_product, if_neg hne, if_neg hnm, h1]
      by_cases hb : ((updatedAttrs args).name.isNone && (updatedAttrs args).price.isNone &&
          (updatedAttrs args).description.isNone) = true
      · right
        rw [if_pos hb]
      · left
        rw [if_neg hb]
        show some (convertPrice (updatedAttrs args).price) = some none
        rcases hargs with h | h <;> simp [updatedAttrs, convertPrice, h]

/-- C10 witness: the product `pz` stores price zero; all three operations
surface its price as absent. -/
theorem zero_price_surfaces_absent_witness :
    (get_product zeroPriceTable "pz").map Product.price = some none
    ∧ ((toProduct zeroItem).map Product.price = .ok none ∨
        (toProduct zeroItem).map Product.price = .error .serverError)
    ∧ (∃ it ∈ scanItems [[zeroItem]],
        toProduct it = .ok zeroProd ∧ (it.price = some 0 → zeroProd.price = none))
    ∧ (priceOfUpdate zeroPriceTable "pz" zeroPriceArgs = some none ∨
        priceOfUpdate zeroPriceTable "pz" zeroPriceArgs = none) :=
  zero_price_surfaces_absent zeroPriceTable "pz"
    { name := some "Zed", price := some 0, description := none }
    zeroItem [[zeroItem]] [zeroProd] zeroProd zeroPriceArgs
    (by decide) (by decide) (by decide)
    (by rw [list_products, scanItems_eq_flatten]; decide)
    (by decide) (Or.inr rfl)

/-! ## C4: demand-driven laziness of relationship fetches -/

/-- C4: evaluating a product query whose requested field set holds only
scalar fields (neither `reviews` nor `inventory`) issues zero calls to the
reviews and inventory storage lookups: the adapter-call log is empty. -/
theorem scalar_only_no_fetch (st : Stores) (p : Product) (requested : List PField)
    (h : ∀ f ∈ requested, f ≠ PField.reviews ∧ f ≠ PField.inventory) :
    (resolveFields st p requested).2 = [] := by
  induction requested with
  | nil => rfl
  | cons f fs ih =>
      have hf := h f (List.mem_cons_self f fs)
      have hrest : ∀ g ∈ fs, g ≠ PField.reviews ∧ g ≠ PField.inventory :=
        fun g hg => h g (List.mem_cons_of_mem f hg)
      cases f
      case reviews => exact absurd rfl hf.1
      case inventory => exact absurd rfl hf.2
      all_goals simp [resolveFields, resolveField, ih hrest]

/-- C4 witness: requesting the four scalar fields of a product issues no
adapter call at all. -/
theorem scalar_only_no_fetch_witness :
    (resolveFields okStores prodP1
      [PField.productId, PField.name, PField.price, PField.description]).2 = [] :=
  scalar_only_no_fetch okStores prodP1
    [PField.productId, PField.name, PField.price, PField.description] (by decide)

/-! ## C5: a reviews failure is not isolated to the reviews field -/

/-- C5 counterexample: when the reviews backend raises `ClientError` while
the inventory backend succeeds, a query requesting both fields does get a
field-level error scoped to `reviews`, but the response data for the product
is `none` rather than an object carrying the inventory value: `reviews` is
declared non-nullable (`List[Review]`), so GraphQL error propagation
nullifies the enclosing product object, and the successfully resolved
inventory value is not returned in the response. -/
theorem reviews_failure_counterexample :
    (evalProductQuery failStores prodP1 [PField.reviews, PField.inventory]).1.1 = none
    ∧ (evalProductQuery failStores prodP1 [PField.reviews, PField.inventory]).1.2 =
        [{ path := ["product", "reviews"], message := "backend unavailable" }]
    ∧ inventoryResolver failStores "p1" =
        .ok (some { product_id := "p1", quantity_available := 5, loc := "WH1" }) := by
  refine ⟨by decide, by decide, by decide⟩

/-- C5 amended: with the reviews backend unavailable and the inventory
backend available, a query for both fields issues both adapter calls (the
inventory fetch still runs and succeeds), records exactly one field-level
error, at path product.reviews, but completes the product object to null,
so the inventory value does not appear in the response data. -/
theorem reviews_failure_nullifies_product (st : Stores) (p : Product)
    (hrv : st.reviewsAvailable = false) (hin : st.inventoryAvailable = true) :
    (evalProductQuery st p [PField.reviews, PField.inventory]).2 =
        [FetchCall.reviewsQuery p.product_id, FetchCall.inventoryGet p.product_id]
    ∧ (evalProductQuery st p [PField.reviews, PField.inventory]).1.2 =
        [{ path := ["product", "reviews"], message := "backend unavailable" }]
    ∧ (evalProductQuery st p [PField.reviews, PField.inventory]).1.1 = none
    ∧ isOkE (inventoryResolver st p.product_id) = true := by
  have hrev : reviewsResolver st p.product_id = .error .backendUnavailable := by
    simp [reviewsResolver, hrv]
  have hinv : ∃ v, inventoryResolver st p.product_id = .ok v := by
    rw [inventoryResolver, if_pos hin]
    cases st.inventoryTable.find? (fun i => i.product_id = p.product_id) with
    | none => exact ⟨none, rfl⟩
    | some i => exact ⟨some i, rfl⟩
  rcases hinv with ⟨v, hv⟩
  refine ⟨?_, ?_, ?_, ?_⟩ <;>
    simp [evalProductQuery, resolveFields, resolveField, completeProduct,
      fieldName, fieldNonNull, isOkE, Except.map, hrev, hv]

/-- C5 amended, witness: the concrete failing stores exhibit the amended
behaviour end to end. -/
theorem reviews_failure_nullifies_product_witness :
    (evalProductQuery failStores prodP1 [PField.reviews, PField.inventory]).2 =
        [FetchCall.reviewsQuery "p1", FetchCall.inventoryGet "p1"]
    ∧ (evalProductQuery failStores prodP1 [PField.reviews, PField.inventory]).1.2 =
        [{ path := ["product", "reviews"], message := "backend unavailable" }]
    ∧ (evalProductQuery failStores prodP1 [PField.reviews, PField.inventory]).1.1 = none
    ∧ isOkE (inventoryResolver failStores "p1") = true :=
  reviews_failure_nullifies_product failStores prodP1 rfl rfl

/-! ## C6: absent inventory resolves to an explicit None, never an error -/

/-- C6: for a product with no matching inventory record (and the backend
answering), the inventory resolver returns an explicit `none`: by the shape
of the result it is neither an error nor a fabricated record. -/
theorem inventory_absent_yields_none (st : Stores) (product_id : String)
    (hav : st.inventoryAvailable = true)
    (habs : ∀ i ∈ st.inventoryTable, i.product_id ≠ product_id) :
    inventoryResolver st product_id = .ok none := by
  have hfind : st.inventoryTable.find? (fun i => i.product_id = product_id) = none := by
    rw [List.find?_eq_none]
    intro i hi
    simp [habs i hi]
  rw [inventoryResolver, if_pos hav, hfind]

/-- C6 witness: `p1` has no inventory record in `okStores`. -/
theorem inventory_absent_yields_none_witness :
    inventoryResolver okStores "p1" = .ok none :=
  inventory_absent_yields_none okStores "p1" rfl (by decide)

/-! ## C7: zero matching reviews resolve to the empty sequence -/

/-- C7: for a product with zero matching review records (and the backend
answering), the reviews resolver returns the empty ordered sequence, not an
error. -/
theorem reviews_none_yields_empty (st : Stores) (product_id : String)
    (hav : st.reviewsAvailable = true)
    (hno : ∀ r ∈ st.reviewsTable, r.product_id ≠ product_id) :
    reviewsResolver st product_id = .ok [] := by
  have hfil : st.reviewsTable.filter (fun r => r.product_id = product_id) = [] := by
    rw [List.filter_eq_nil_iff]
    intro r hr
    simp [hno r hr]
  rw [reviewsResolver, if_pos hav, hfil]

/-- C7 witness: `p1` has no review record in `okStores`. -/
theorem reviews_none_yields_empty_witness :
    reviewsResolver okStores "p1" = .ok [] :=
  reviews_none_yields_empty okStores "p1" rfl (by decide)

end DisGraphql
